import Mathlib

/-!
Shallow embedding of the Zenith Point progression engine (`src/game.js`).
The file `game.js` contains two variants of the engine:

* `V1` — the ratio-based engine (`GameEngine`, lines 11–221): resource
  (`flux`), lifetime total (`totalFlux`), prestige level (`coherence`),
  reboot counter, and a list of four purchasable upgrades; completion is
  `flux / zenithTarget`, clamped below 100%.
* `V2` — the distance-based engine (`GameEngine`, lines 483–760): same
  core plus `velocity`, `distance` and `baseDistance`; completion is
  `1 - distance / zenithTarget`, clamped below 100%.

JavaScript numbers are idealised as real numbers `ℝ`; upgrade counts are
natural numbers.  Each JS method is translated to a pure state-transition
function.  DOM / audio calls performed by the methods are tracked
separately as effect traces (the `Effect` type) where a claim needs them.
-/

open Classical

namespace Zenith

/-- One upgrade record, as stored in `this.upgrades`: immutable definition
fields (`id`, `baseCost`, `costMult`, `power`, `isMult` — the latter models
the presence of `type: 'mult'`) plus the mutable owned `count`. -/
structure Upgrade where
  id : String
  baseCost : ℝ
  costMult : ℝ
  count : ℕ
  power : ℝ
  isMult : Bool

/-- Increment the `count` of the first upgrade whose id matches, leaving the
rest unchanged.  This is the JS idiom `const u = list.find(u => u.id === id);
u.count++` (mutating the object returned by `find`, i.e. the first match). -/
def incCount : List Upgrade → String → List Upgrade
  | [], _ => []
  | u :: rest, id =>
      if u.id == id then { u with count := u.count + 1 } :: rest
      else u :: incCount rest id

/-- Overwrite the `count` of the first upgrade whose id matches (the JS idiom
`const u = list.find(u => u.id === su.id); if (u) u.count = su.count`);
when no id matches, the list is unchanged (`if (u)` guard). -/
def setCount : List Upgrade → String → ℕ → List Upgrade
  | [], _, _ => []
  | u :: rest, id, c =>
      if u.id == id then { u with count := c } :: rest
      else u :: setCount rest id c

/-- The owned count of the upgrade with the given id (first match), 0 when
no upgrade has that id.  Observation function used to state claims. -/
def countOf (us : List Upgrade) (id : String) : ℕ :=
  match us.find? (fun u => u.id == id) with
  | some u => u.count
  | none => 0

/-- External calls a `GameEngine` method can make; used to record, per
operation, which collaborators it invokes (persistence vs presentation). -/
inductive Effect where
  | notify
  | renderUpgrades
  | updateUI
  | saveGame
deriving DecidableEq

namespace V1

/-- Mutable state of the v1 `GameEngine` (constructor, lines 12–27). -/
structure State where
  flux : ℝ
  totalFlux : ℝ
  coherence : ℝ
  rebootCount : ℕ
  upgrades : List Upgrade

/-- The four upgrade definitions of the v1 constructor (lines 18–23). -/
def initUpgrades : List Upgrade :=
  [ ⟨"u1", 10, 1.15, 0, 0.5, false⟩,
    ⟨"u2", 100, 1.2, 0, 5.0, false⟩,
    ⟨"u3", 1000, 1.25, 0, 50.0, false⟩,
    ⟨"u4", 10000, 1.5, 0, 2.0, true⟩ ]

/-- Initial state of the v1 engine: `flux = 0`, `totalFlux = 0`,
`coherence = 1.0`, `rebootCount = 0`, all counts 0. -/
def initState : State := ⟨0, 0, 1, 0, initUpgrades⟩

noncomputable section

/-- `addFlux(amount)` (lines 56–60): adds `amount` to both `flux` and
`totalFlux`.  (The `updateUI()` call it makes is presentation only.) -/
def addFlux (s : State) (amount : ℝ) : State :=
  { s with flux := s.flux + amount, totalFlux := s.totalFlux + amount }

/-- One step of the `forEach` accumulation in `getRate` (lines 66–69):
additive upgrades (`!u.type`) add `count * power` to the base, multiplicative
upgrades (`type === 'mult'`) multiply the multiplier by `power ** count`. -/
def rateStep (acc : ℝ × ℝ) (u : Upgrade) : ℝ × ℝ :=
  if u.isMult then (acc.1, acc.2 * u.power ^ u.count)
  else (acc.1 + u.count * u.power, acc.2)

/-- `getRate()` (lines 62–72): `base * mult * coherence` where `base` and
`mult` are accumulated over the upgrade list starting from `(0, 1)`. -/
def getRate (s : State) : ℝ :=
  let acc := s.upgrades.foldl rateStep (0, 1)
  acc.1 * acc.2 * s.coherence

/-- The zenith target as a function of the coherence level:
`Math.pow(10, 15 + (1.2 * (coherence - 1)))` (line 81). -/
def getZenithTargetAt (c : ℝ) : ℝ := (10 : ℝ) ^ (15 + 1.2 * (c - 1))

/-- `getZenithTarget()` (lines 74–82). -/
def getZenithTarget (s : State) : ℝ := getZenithTargetAt s.coherence

/-- `getRebootRequirement()` (lines 84–86):
`Math.pow(10, 10 + (2.5 * (coherence - 1)))`. -/
def getRebootRequirement (s : State) : ℝ :=
  (10 : ℝ) ^ (10 + 2.5 * (s.coherence - 1))

/-- `getCost(u)` (lines 105–107): `baseCost * costMult ** count`. -/
def getCost (u : Upgrade) : ℝ := u.baseCost * u.costMult ^ u.count

/-- `buyUpgrade(id)` (lines 109–119): find the upgrade by id, compute its
cost at the current count, and when `flux >= cost` deduct the cost and
increment that upgrade's count; otherwise do nothing.  (With an id that
matches no upgrade the JS code would throw on `this.getCost(undefined)`
before touching any state; the state is likewise unchanged here.) -/
def buyUpgrade (s : State) (id : String) : State :=
  match s.upgrades.find? (fun u => u.id == id) with
  | none => s
  | some u =>
      if getCost u ≤ s.flux then
        { s with flux := s.flux - getCost u, upgrades := incCount s.upgrades id }
      else s

/-- `executeReboot()` (lines 121–132): when `flux >= getRebootRequirement()`,
increment `coherence` by 1, zero `flux`, zero every upgrade count and
increment `rebootCount`; otherwise do nothing. -/
def executeReboot (s : State) : State :=
  if getRebootRequirement s ≤ s.flux then
    { s with coherence := s.coherence + 1,
             flux := 0,
             upgrades := s.upgrades.map (fun u => { u with count := 0 }),
             rebootCount := s.rebootCount + 1 }
  else s

/-- The collect click handler (line 48): `addFlux(1 * coherence)`. -/
def collect (s : State) : State := addFlux s (1 * s.coherence)

/-- The body of the `startLoop` interval (lines 185–194) with the elapsed
time `delta = (now - lastTick) / 1000` taken as the argument:
`addFlux(getRate() * delta)`.  Note the source applies no clamp to `delta`. -/
def tick (s : State) (delta : ℝ) : State :=
  addFlux s (getRate s * delta)

/-- The completion fraction computed by `updateUI` (lines 140–142):
`min((flux / target) * 100, 99.999999)`. -/
def completionFraction (s : State) : ℝ :=
  min (s.flux / getZenithTarget s * 100) 99.999999

/-- A persisted snapshot as read back by `loadGame` (lines 207–220): every
field may be absent (`none`).  `upgrades` is a list of `(id, count)` pairs. -/
structure Snapshot where
  flux : Option ℝ
  totalFlux : Option ℝ
  coherence : Option ℝ
  rebootCount : Option ℕ
  upgrades : Option (List (String × ℕ))

/-- The JS `value || default` idiom on a possibly-missing numeric field:
a missing or zero (falsy) value yields the default. -/
def jsOr (v : Option ℝ) (d : ℝ) : ℝ :=
  match v with
  | none => d
  | some x => if x = 0 then d else x

/-- `value || default` for the integer `rebootCount` field. -/
def jsOrN (v : Option ℕ) (d : ℕ) : ℕ :=
  match v with
  | none => d
  | some x => if x = 0 then d else x

/-- One step of the `data.upgrades.forEach` in `loadGame` (lines 215–218). -/
def applySaved (us : List Upgrade) (su : String × ℕ) : List Upgrade :=
  setCount us su.1 su.2

/-- `loadGame()` (lines 207–220).  `stored = none` models an absent
`localStorage` entry (state unchanged).  Otherwise the scalar fields are
assigned with `|| default`, then `data.upgrades.forEach` applies each saved
count to the upgrade with that id.  When the snapshot has no `upgrades`
field the JS code throws a `TypeError` on `data.upgrades.forEach` *after*
the scalar assignments: this is modelled as `.error` carrying the
partially-updated state. -/
def loadGame (s : State) (stored : Option Snapshot) : Except State State :=
  match stored with
  | none => .ok s
  | some d =>
      let s1 : State :=
        { s with flux := jsOr d.flux 0,
                 totalFlux := jsOr d.totalFlux 0,
                 coherence := jsOr d.coherence 1,
                 rebootCount := jsOrN d.rebootCount 0 }
      match d.upgrades with
      | none => .error s1
      | some l => .ok { s1 with upgrades := l.foldl applySaved s1.upgrades }

/-- The external calls made by `buyUpgrade` (lines 109–119): on a successful
purchase `notify`, `renderUpgrades`, `updateUI` (and, via nothing else, no
persistence call); on a declined purchase, none. -/
def buyUpgradeEffects (s : State) (id : String) : List Effect :=
  match s.upgrades.find? (fun u => u.id == id) with
  | none => []
  | some u =>
      if getCost u ≤ s.flux then [.notify, .renderUpgrades, .updateUI]
      else []

/-- The external calls made by `executeReboot` (lines 121–132). -/
def executeRebootEffects (s : State) : List Effect :=
  if getRebootRequirement s ≤ s.flux then [.notify, .renderUpgrades, .updateUI]
  else []

/-- The external calls made by one interval step of `startLoop`
(lines 185–194): `addFlux` calls `updateUI()`. -/
def tickEffects (_ : State) (_ : ℝ) : List Effect := [.updateUI]

/-- The external calls made by the collect click handler (line 48):
`addFlux` calls `updateUI()`. -/
def collectEffects (_ : State) : List Effect := [.updateUI]

end

end V1

namespace V2

/-- Mutable state of the v2 `GameEngine` (constructor, lines 484–508). -/
structure State where
  flux : ℝ
  totalFlux : ℝ
  coherence : ℝ
  velocity : ℝ
  distance : ℝ
  baseDistance : ℝ
  reboots : ℕ
  upgrades : List Upgrade

/-- The closing constant `this.epsilon = 1e-9` (line 504). -/
noncomputable def epsilon : ℝ := 1e-9

/-- The four upgrade definitions of the v2 constructor (lines 493–498). -/
def initUpgrades : List Upgrade :=
  [ ⟨"u1", 15, 1.15, 0, 1.0, false⟩,
    ⟨"u2", 150, 1.2, 0, 10.0, false⟩,
    ⟨"u3", 2000, 1.6, 0, 4.0, true⟩,
    ⟨"u4", 50000, 2.2, 0, 2.5, true⟩ ]

/-- Initial state of the v2 engine: `flux = 0`, `totalFlux = 0`,
`coherence = 1.0`, `velocity = 0`, `distance = baseDistance = 1e15`,
`reboots = 0`, all counts 0. -/
noncomputable def initState : State := ⟨0, 0, 1, 0, 1e15, 1e15, 0, initUpgrades⟩

noncomputable section

/-- `addFlux(amount)` (lines 554–557). -/
def addFlux (s : State) (amount : ℝ) : State :=
  { s with flux := s.flux + amount, totalFlux := s.totalFlux + amount }

/-- `getRate()` (lines 559–567): same accumulation as v1 (`!u.type` adds
`count * power`, otherwise multiply by `Math.pow(power, count)`). -/
def getRate (s : State) : ℝ :=
  let acc := s.upgrades.foldl Zenith.V1.rateStep (0, 1)
  acc.1 * acc.2 * s.coherence

/-- The zenith target as a function of the coherence level:
`Math.pow(10, 15 + (1.5 * (coherence - 1)))` (line 574). -/
def getZenithTargetAt (c : ℝ) : ℝ := (10 : ℝ) ^ (15 + 1.5 * (c - 1))

/-- `getZenithTarget()` (lines 569–575). -/
def getZenithTarget (s : State) : ℝ := getZenithTargetAt s.coherence

/-- `getRebootRequirement()` (lines 577–579):
`Math.pow(10, 10 + (2.8 * (coherence - 1)))`. -/
def getRebootRequirement (s : State) : ℝ :=
  (10 : ℝ) ^ (10 + 2.8 * (s.coherence - 1))

/-- `getCost(u)` (lines 600–602): `baseCost * Math.pow(costMult, count)`. -/
def getCost (u : Upgrade) : ℝ := u.baseCost * u.costMult ^ u.count

/-- `buyUpgrade(id)` (lines 604–613): same guard and effect as v1. -/
def buyUpgrade (s : State) (id : String) : State :=
  match s.upgrades.find? (fun u => u.id == id) with
  | none => s
  | some u =>
      if getCost u ≤ s.flux then
        { s with flux := s.flux - getCost u, upgrades := incCount s.upgrades id }
      else s

/-- `executeReboot()` (lines 615–632): when `flux >= getRebootRequirement()`,
increment `coherence` and `reboots`, zero `flux` and every count, then
re-anchor `baseDistance` and `distance` to `getZenithTarget()` evaluated at
the *new* coherence. -/
def executeReboot (s : State) : State :=
  if getRebootRequirement s ≤ s.flux then
    { s with coherence := s.coherence + 1,
             reboots := s.reboots + 1,
             flux := 0,
             upgrades := s.upgrades.map (fun u => { u with count := 0 }),
             baseDistance := getZenithTargetAt (s.coherence + 1),
             distance := getZenithTargetAt (s.coherence + 1) }
  else s

/-- The collect click handler (lines 543–548):
`addFlux(1 * Math.pow(coherence, 1.5))`. -/
def collect (s : State) : State :=
  addFlux s (1 * s.coherence ^ (1.5 : ℝ))

/-- The per-frame body of `animate()` (lines 634–658) with the elapsed time
`delta = (now - lastTick) / 1000` taken as the argument: accrue
`getRate() * delta`, set `velocity = rate * 10`, reduce `distance` by
`velocity * epsilon * delta`, and floor `distance` at `1e5`.  The source
applies no clamp to `delta`. -/
def animate (s : State) (delta : ℝ) : State :=
  let rate := getRate s
  let s1 := addFlux s (rate * delta)
  let v := rate * 10
  let d := s1.distance - v * epsilon * delta
  { s1 with velocity := v, distance := if d < 1e5 then 1e5 else d }

/-- The completion fraction computed by `updateUI` (lines 679–683):
`min(max(0, (1 - distance / target) * 100), 99.9999999)`. -/
def completionFraction (s : State) : ℝ :=
  min (max 0 ((1 - s.distance / getZenithTarget s) * 100)) 99.9999999

end

end V2

/-! ### Concrete states used by witnesses and counterexamples -/

/-- A v1 state able to reboot: coherence 1, `flux = 10^10`, which equals
`getRebootRequirement` there. -/
noncomputable def V1.rebootReadyState : V1.State :=
  { V1.initState with flux := (10 : ℝ) ^ (10 : ℝ) }

/-- A v2 state able to reboot: coherence 1, `flux = 10^10`, which equals
`getRebootRequirement` there. -/
noncomputable def V2.rebootReadyState : V2.State :=
  { V2.initState with flux := (10 : ℝ) ^ (10 : ℝ) }

/-- A v1 state that can just afford upgrade `u1` (cost 10 at count 0). -/
noncomputable def V1.buyReadyState : Zenith.V1.State :=
  { Zenith.V1.initState with flux := 10 }

/-- A v2 state that can just afford upgrade `u1` (cost 15 at count 0). -/
noncomputable def V2.buyReadyState : Zenith.V2.State :=
  { Zenith.V2.initState with flux := 15 }

/-- A v1 state owning one `u1` (rate `0.5`) and holding 1 flux. -/
noncomputable def V1.tickDemoState : Zenith.V1.State :=
  { Zenith.V1.initState with
      flux := 1,
      upgrades := Zenith.incCount Zenith.V1.initUpgrades "u1" }

/-- A v1 state owning one `u1` and holding 0 flux. -/
noncomputable def V1.zeroFluxRateState : Zenith.V1.State :=
  { Zenith.V1.initState with upgrades := Zenith.incCount Zenith.V1.initUpgrades "u1" }

/-- A snapshot that has a `flux` entry but no `upgrades` field. -/
noncomputable def V1.badSnapshot : Zenith.V1.Snapshot :=
  ⟨some 5, none, none, none, none⟩

/-- A snapshot with all scalar fields missing and one unknown upgrade id. -/
noncomputable def V1.sparseSnapshot : Zenith.V1.Snapshot :=
  ⟨none, none, none, none, some [("zz", 7)]⟩

/-! ### Helper lemmas -/

/-- The v1 zenith target is positive at every coherence level. -/
lemma V1.zenithTargetAt_pos_v1 (c : ℝ) : 0 < V1.getZenithTargetAt c :=
  Real.rpow_pos_of_pos (by norm_num) _

/-- The v2 zenith target is positive at every coherence level. -/
lemma V2.zenithTargetAt_pos_v2 (c : ℝ) : 0 < V2.getZenithTargetAt c :=
  Real.rpow_pos_of_pos (by norm_num) _

/-- The v1 zenith target strictly grows with each coherence level. -/
lemma V1.zenithTargetAt_lt_succ_v1 (c : ℝ) :
    V1.getZenithTargetAt c < V1.getZenithTargetAt (c + 1) := by
  unfold V1.getZenithTargetAt
  exact (Real.rpow_lt_rpow_left_iff (by norm_num : (1:ℝ) < 10)).2 (by norm_num)

/-- The v2 zenith target strictly grows with each coherence level. -/
lemma V2.zenithTargetAt_lt_succ_v2 (c : ℝ) :
    V2.getZenithTargetAt c < V2.getZenithTargetAt (c + 1) := by
  unfold V2.getZenithTargetAt
  exact (Real.rpow_lt_rpow_left_iff (by norm_num : (1:ℝ) < 10)).2 (by norm_num)

/-- At coherence 1 the v1 reboot requirement is `10^10`. -/
lemma V1.rebootReadyState_req_v1 :
    V1.getRebootRequirement V1.rebootReadyState ≤ V1.rebootReadyState.flux := by
  unfold V1.getRebootRequirement V1.rebootReadyState V1.initState
  norm_num

/-- At coherence 1 the v2 reboot requirement is `10^10`. -/
lemma V2.rebootReadyState_req_v2 :
    V2.getRebootRequirement V2.rebootReadyState ≤ V2.rebootReadyState.flux := by
  unfold V2.getRebootRequirement V2.rebootReadyState V2.initState
  norm_num

end Zenith

/-! ### Claims -/

/-- C1: for every v1 state with `flux ≥ 0` and every v2 state with
`distance ≥ 0`, the completion fraction computed by `updateUI` lies in
`[0, 100)` — it is never exactly 100, no matter how large the resource is
relative to the zenith target. -/
theorem completionFraction_mem_Ico (s : Zenith.V1.State) (s2 : Zenith.V2.State)
    (h1 : 0 ≤ s.flux) (h2 : 0 ≤ s2.distance) :
    (0 ≤ Zenith.V1.completionFraction s ∧ Zenith.V1.completionFraction s < 100) ∧
    (0 ≤ Zenith.V2.completionFraction s2 ∧ Zenith.V2.completionFraction s2 < 100) := by
  refine ⟨⟨?_, ?_⟩, ⟨?_, ?_⟩⟩
  · apply le_min
    · have ht : 0 < Zenith.V1.getZenithTarget s := Zenith.V1.zenithTargetAt_pos_v1 _
      have := div_nonneg h1 ht.le
      nlinarith
    · norm_num
  · exact lt_of_le_of_lt (min_le_right _ _) (by norm_num)
  · exact le_min (le_max_left _ _) (by norm_num)
  · exact lt_of_le_of_lt (min_le_right _ _) (by norm_num)

/-- Witness for C1 at the two initial states. -/
theorem completionFraction_mem_Ico_witness :
    0 ≤ Zenith.V1.initState.flux ∧ 0 ≤ Zenith.V2.initState.distance ∧
    ((0 ≤ Zenith.V1.completionFraction Zenith.V1.initState ∧
      Zenith.V1.completionFraction Zenith.V1.initState < 100) ∧
     (0 ≤ Zenith.V2.completionFraction Zenith.V2.initState ∧
      Zenith.V2.completionFraction Zenith.V2.initState < 100)) := by
  have h1 : 0 ≤ Zenith.V1.initState.flux := le_of_eq rfl
  have h2 : 0 ≤ Zenith.V2.initState.distance := by
    norm_num [Zenith.V2.initState]
  exact ⟨h1, h2, completionFraction_mem_Ico _ _ h1 h2⟩

/-- C2: in both engine variants, `executeReboot` is a no-op when
`flux < getRebootRequirement()`; when `flux ≥ getRebootRequirement()` it
atomically increments `coherence` by exactly 1, zeroes `flux`, zeroes every
upgrade count, increments the reboot counter by 1, and strictly increases
`getZenithTarget()`; in the v2 (distance) variant `distance` and
`baseDistance` are re-anchored to the newly computed zenith target. -/
theorem executeReboot_spec (s : Zenith.V1.State) (s2 : Zenith.V2.State) :
    (s.flux < Zenith.V1.getRebootRequirement s → Zenith.V1.executeReboot s = s) ∧
    (Zenith.V1.getRebootRequirement s ≤ s.flux →
      (Zenith.V1.executeReboot s).coherence = s.coherence + 1 ∧
      (Zenith.V1.executeReboot s).flux = 0 ∧
      (∀ u ∈ (Zenith.V1.executeReboot s).upgrades, u.count = 0) ∧
      (Zenith.V1.executeReboot s).rebootCount = s.rebootCount + 1 ∧
      Zenith.V1.getZenithTarget s < Zenith.V1.getZenithTarget (Zenith.V1.executeReboot s)) ∧
    (s2.flux < Zenith.V2.getRebootRequirement s2 → Zenith.V2.executeReboot s2 = s2) ∧
    (Zenith.V2.getRebootRequirement s2 ≤ s2.flux →
      (Zenith.V2.executeReboot s2).coherence = s2.coherence + 1 ∧
      (Zenith.V2.executeReboot s2).flux = 0 ∧
      (∀ u ∈ (Zenith.V2.executeReboot s2).upgrades, u.count = 0) ∧
      (Zenith.V2.executeReboot s2).reboots = s2.reboots + 1 ∧
      Zenith.V2.getZenithTarget s2 < Zenith.V2.getZenithTarget (Zenith.V2.executeReboot s2) ∧
      (Zenith.V2.executeReboot s2).distance =
        Zenith.V2.getZenithTarget (Zenith.V2.executeReboot s2) ∧
      (Zenith.V2.executeReboot s2).baseDistance =
        Zenith.V2.getZenithTarget (Zenith.V2.executeReboot s2)) := by
  refine ⟨?_, ?_, ?_, ?_⟩
  · intro h
    simp only [Zenith.V1.executeReboot, if_neg (not_le.mpr h)]
  · intro h
    unfold Zenith.V1.executeReboot
    rw [if_pos h]
    refine ⟨rfl, rfl, ?_, rfl, ?_⟩
    · intro u hu
      simp only [List.mem_map] at hu
      obtain ⟨v, _, rfl⟩ := hu
      rfl
    · exact Zenith.V1.zenithTargetAt_lt_succ_v1 s.coherence
  · intro h
    simp only [Zenith.V2.executeReboot, if_neg (not_le.mpr h)]
  · intro h
    unfold Zenith.V2.executeReboot
    rw [if_pos h]
    refine ⟨rfl, rfl, ?_, rfl, ?_, rfl, rfl⟩
    · intro u hu
      simp only [List.mem_map] at hu
      obtain ⟨v, _, rfl⟩ := hu
      rfl
    · exact Zenith.V2.zenithTargetAt_lt_succ_v2 s2.coherence

/-- Witness for C2: both reset-ready states satisfy the requirement, the
v1 reboot raises coherence to 2, and the v2 reboot re-anchors `distance`
to the new target. -/
theorem executeReboot_spec_witness :
    Zenith.V1.getRebootRequirement Zenith.V1.rebootReadyState ≤
      Zenith.V1.rebootReadyState.flux ∧
    Zenith.V2.getRebootRequirement Zenith.V2.rebootReadyState ≤
      Zenith.V2.rebootReadyState.flux ∧
    (Zenith.V1.executeReboot Zenith.V1.rebootReadyState).coherence =
      Zenith.V1.rebootReadyState.coherence + 1 ∧
    (Zenith.V2.executeReboot Zenith.V2.rebootReadyState).distance =
      Zenith.V2.getZenithTarget (Zenith.V2.executeReboot Zenith.V2.rebootReadyState) := by
  have h1 := Zenith.V1.rebootReadyState_req_v1
  have h2 := Zenith.V2.rebootReadyState_req_v2
  have spec := executeReboot_spec Zenith.V1.rebootReadyState Zenith.V2.rebootReadyState
  exact ⟨h1, h2, (spec.2.1 h1).1, ((spec.2.2.2 h2).2.2.2.2.2.1)⟩

/-- Incrementing via `incCount` raises `countOf` by exactly one whenever an
upgrade with the given id exists. -/
theorem Zenith.countOf_incCount (us : List Zenith.Upgrade) (id : String)
    (h : (us.find? (fun v => v.id == id)).isSome) :
    Zenith.countOf (Zenith.incCount us id) id = Zenith.countOf us id + 1 := by
  induction us with
  | nil => simp [List.find?] at h
  | cons a rest ih =>
      by_cases ha : (a.id == id) = true
      · simp [Zenith.incCount, ha, Zenith.countOf, List.find?_cons_of_pos, ha]
      · rw [List.find?_cons_of_neg _ (by simpa using ha)] at h
        simp only [Zenith.incCount, if_neg ha]
        rw [Zenith.countOf, List.find?_cons_of_neg _ (by simpa using ha),
            Zenith.countOf, List.find?_cons_of_neg _ (by simpa using ha)]
        exact ih h

/-- C3: in both engine variants, for every id that resolves to an upgrade
`u` of the state, `buyUpgrade` is a no-op when `flux < getCost(u)`; when
`flux ≥ getCost(u)` it decreases `flux` by exactly `getCost(u)` — the cost
evaluated at the pre-purchase count — and increments that upgrade's owned
count by exactly 1. -/
theorem buyUpgrade_spec (s : Zenith.V1.State) (s2 : Zenith.V2.State)
    (id id2 : String) (u u2 : Zenith.Upgrade)
    (h : s.upgrades.find? (fun v => v.id == id) = some u)
    (h2 : s2.upgrades.find? (fun v => v.id == id2) = some u2) :
    ((s.flux < Zenith.V1.getCost u → Zenith.V1.buyUpgrade s id = s) ∧
     (Zenith.V1.getCost u ≤ s.flux →
       (Zenith.V1.buyUpgrade s id).flux = s.flux - Zenith.V1.getCost u ∧
       Zenith.countOf (Zenith.V1.buyUpgrade s id).upgrades id =
         Zenith.countOf s.upgrades id + 1)) ∧
    ((s2.flux < Zenith.V2.getCost u2 → Zenith.V2.buyUpgrade s2 id2 = s2) ∧
     (Zenith.V2.getCost u2 ≤ s2.flux →
       (Zenith.V2.buyUpgrade s2 id2).flux = s2.flux - Zenith.V2.getCost u2 ∧
       Zenith.countOf (Zenith.V2.buyUpgrade s2 id2).upgrades id2 =
         Zenith.countOf s2.upgrades id2 + 1)) := by
  refine ⟨⟨?_, ?_⟩, ⟨?_, ?_⟩⟩
  · intro hlt
    simp only [Zenith.V1.buyUpgrade, h, if_neg (not_le.mpr hlt)]
  · intro hle
    simp only [Zenith.V1.buyUpgrade, h, if_pos hle]
    exact ⟨trivial, Zenith.countOf_incCount s.upgrades id (by rw [h]; rfl)⟩
  · intro hlt
    simp only [Zenith.V2.buyUpgrade, h2, if_neg (not_le.mpr hlt)]
  · intro hle
    simp only [Zenith.V2.buyUpgrade, h2, if_pos hle]
    exact ⟨trivial, Zenith.countOf_incCount s2.upgrades id2 (by rw [h2]; rfl)⟩

/-- Witness for C3: buying `u1` in either variant with exactly its base
cost in hand succeeds, zeroing `flux` and raising the count from 0 to 1. -/
theorem buyUpgrade_spec_witness :
    Zenith.V1.buyReadyState.upgrades.find? (fun v => v.id == "u1") =
      some ⟨"u1", 10, 1.15, 0, 0.5, false⟩ ∧
    Zenith.V2.buyReadyState.upgrades.find? (fun v => v.id == "u1") =
      some ⟨"u1", 15, 1.15, 0, 1.0, false⟩ ∧
    Zenith.V1.getCost ⟨"u1", 10, 1.15, 0, 0.5, false⟩ ≤ Zenith.V1.buyReadyState.flux ∧
    Zenith.V2.getCost ⟨"u1", 15, 1.15, 0, 1.0, false⟩ ≤ Zenith.V2.buyReadyState.flux ∧
    (Zenith.V1.buyUpgrade Zenith.V1.buyReadyState "u1").flux =
      Zenith.V1.buyReadyState.flux - Zenith.V1.getCost ⟨"u1", 10, 1.15, 0, 0.5, false⟩ ∧
    Zenith.countOf (Zenith.V1.buyUpgrade Zenith.V1.buyReadyState "u1").upgrades "u1" =
      Zenith.countOf Zenith.V1.buyReadyState.upgrades "u1" + 1 ∧
    Zenith.countOf (Zenith.V2.buyUpgrade Zenith.V2.buyReadyState "u1").upgrades "u1" =
      Zenith.countOf Zenith.V2.buyReadyState.upgrades "u1" + 1 := by
  have h : Zenith.V1.buyReadyState.upgrades.find? (fun v => v.id == "u1") =
      some ⟨"u1", 10, 1.15, 0, 0.5, false⟩ := rfl
  have h2 : Zenith.V2.buyReadyState.upgrades.find? (fun v => v.id == "u1") =
      some ⟨"u1", 15, 1.15, 0, 1.0, false⟩ := rfl
  have hc : Zenith.V1.getCost ⟨"u1", 10, 1.15, 0, 0.5, false⟩ ≤
      Zenith.V1.buyReadyState.flux := by
    simp [Zenith.V1.getCost, Zenith.V1.buyReadyState, Zenith.V1.initState]
  have hc2 : Zenith.V2.getCost ⟨"u1", 15, 1.15, 0, 1.0, false⟩ ≤
      Zenith.V2.buyReadyState.flux := by
    simp [Zenith.V2.getCost, Zenith.V2.buyReadyState, Zenith.V2.initState]
  have spec := buyUpgrade_spec Zenith.V1.buyReadyState Zenith.V2.buyReadyState
    "u1" "u1" _ _ h h2
  exact ⟨h, h2, hc, hc2, (spec.1.2 hc).1, (spec.1.2 hc).2, (spec.2.2 hc2).2⟩

/-- The rate of `tickDemoState` is `0.5` (one Flux Inductor, coherence 1). -/
lemma Zenith.V1.tickDemoState_rate :
    Zenith.V1.getRate Zenith.V1.tickDemoState = 0.5 := by
  simp [Zenith.V1.getRate, Zenith.V1.rateStep, Zenith.V1.tickDemoState,
        Zenith.incCount, Zenith.V1.initUpgrades, Zenith.V1.initState]

/-- Counterexample to C4: the loop body applies no clamp to a negative
elapsed time — a tick of `-1` second from a state with rate `0.5` and
1 flux leaves `0.5` flux, strictly less than before, whereas the claim
says a negative-elapsed tick behaves like a tick of 0 and never decreases
the resource. -/
theorem tick_negative_decreases_flux :
    (Zenith.V1.tick Zenith.V1.tickDemoState (-1)).flux <
      Zenith.V1.tickDemoState.flux := by
  have hr := Zenith.V1.tickDemoState_rate
  simp only [Zenith.V1.tick, Zenith.V1.addFlux, hr]
  have hflux : Zenith.V1.tickDemoState.flux = 1 := rfl
  rw [hflux]
  norm_num

/-- C4 (amended): in both engine variants, the per-tick accrual has no
error conditions and adds exactly `getRate() * delta` to both `flux` and
`totalFlux` for *every* elapsed time `delta` — negative elapsed times are
not clamped (the source computes `delta = (now - lastTick) / 1000` raw), so
a negative delta with a positive rate decreases the resource. -/
theorem tick_adds_rate_times_delta (s : Zenith.V1.State) (s2 : Zenith.V2.State)
    (d d2 : ℝ) :
    (Zenith.V1.tick s d).flux = s.flux + Zenith.V1.getRate s * d ∧
    (Zenith.V1.tick s d).totalFlux = s.totalFlux + Zenith.V1.getRate s * d ∧
    (Zenith.V2.animate s2 d2).flux = s2.flux + Zenith.V2.getRate s2 * d2 ∧
    (Zenith.V2.animate s2 d2).totalFlux = s2.totalFlux + Zenith.V2.getRate s2 * d2 :=
  ⟨rfl, rfl, rfl, rfl⟩

/-- Counterexample to C5: starting from a state with `flux = 0 ≥ 0`, the
tick operation with a negative elapsed time drives the resource strictly
negative, whereas the claim says no engine operation ever does. -/
theorem tick_negative_breaks_nonneg :
    Zenith.V1.zeroFluxRateState.flux = 0 ∧
    (Zenith.V1.tick Zenith.V1.zeroFluxRateState (-1)).flux < 0 := by
  have hr : Zenith.V1.getRate Zenith.V1.zeroFluxRateState = 0.5 := by
    simp [Zenith.V1.getRate, Zenith.V1.rateStep, Zenith.V1.zeroFluxRateState,
          Zenith.incCount, Zenith.V1.initUpgrades, Zenith.V1.initState]
  refine ⟨rfl, ?_⟩
  simp only [Zenith.V1.tick, Zenith.V1.addFlux, hr]
  have hflux : Zenith.V1.zeroFluxRateState.flux = 0 := rfl
  rw [hflux]
  norm_num

/-- The `getRate` accumulator stays componentwise nonnegative when every
upgrade power is nonnegative. -/
theorem Zenith.rateAccum_nonneg : ∀ (us : List Zenith.Upgrade) (a : ℝ × ℝ),
    (∀ u ∈ us, 0 ≤ u.power) → 0 ≤ a.1 → 0 ≤ a.2 →
    0 ≤ (us.foldl Zenith.V1.rateStep a).1 ∧ 0 ≤ (us.foldl Zenith.V1.rateStep a).2
  | [], _, _, h1, h2 => ⟨h1, h2⟩
  | u :: rest, a, hp, h1, h2 => by
      have hu : 0 ≤ u.power := hp u (List.mem_cons_self u rest)
      rw [List.foldl_cons]
      refine Zenith.rateAccum_nonneg rest _
        (fun v hv => hp v (List.mem_cons_of_mem u hv)) ?_ ?_
      · unfold Zenith.V1.rateStep
        split
        · exact h1
        · exact add_nonneg h1 (mul_nonneg (Nat.cast_nonneg _) hu)
      · unfold Zenith.V1.rateStep
        split
        · exact mul_nonneg h2 (pow_nonneg hu _)
        · exact h2

/-- The v1 rate is nonnegative when coherence and all powers are. -/
lemma Zenith.V1.rate_nonneg_v1 (s : Zenith.V1.State) (hc : 0 ≤ s.coherence)
    (hp : ∀ u ∈ s.upgrades, 0 ≤ u.power) : 0 ≤ Zenith.V1.getRate s := by
  have h := Zenith.rateAccum_nonneg s.upgrades (0, 1) hp (le_refl 0) (by norm_num)
  exact mul_nonneg (mul_nonneg h.1 h.2) hc

/-- The v2 rate is nonnegative when coherence and all powers are. -/
lemma Zenith.V2.rate_nonneg_v2 (s : Zenith.V2.State) (hc : 0 ≤ s.coherence)
    (hp : ∀ u ∈ s.upgrades, 0 ≤ u.power) : 0 ≤ Zenith.V2.getRate s := by
  have h := Zenith.rateAccum_nonneg s.upgrades (0, 1) hp (le_refl 0) (by norm_num)
  exact mul_nonneg (mul_nonneg h.1 h.2) hc

/-- C5 (amended): `flux ≥ 0` is preserved by `collect`, `buyUpgrade` and
`executeReboot` from every state with `flux ≥ 0` (and `coherence ≥ 0` for
`collect`), and by the tick/animate accrual provided the elapsed time is
nonnegative; a tick with negative elapsed time can drive `flux` negative
since the source applies no clamp. -/
theorem flux_nonneg_preserved (s : Zenith.V1.State) (s2 : Zenith.V2.State)
    (id id2 : String) (d d2 : ℝ)
    (hf : 0 ≤ s.flux) (hc : 0 ≤ s.coherence)
    (hp : ∀ u ∈ s.upgrades, 0 ≤ u.power) (hd : 0 ≤ d)
    (hf2 : 0 ≤ s2.flux) (hc2 : 0 ≤ s2.coherence)
    (hp2 : ∀ u ∈ s2.upgrades, 0 ≤ u.power) (hd2 : 0 ≤ d2) :
    (0 ≤ (Zenith.V1.collect s).flux ∧ 0 ≤ (Zenith.V1.buyUpgrade s id).flux ∧
     0 ≤ (Zenith.V1.executeReboot s).flux ∧ 0 ≤ (Zenith.V1.tick s d).flux) ∧
    (0 ≤ (Zenith.V2.collect s2).flux ∧ 0 ≤ (Zenith.V2.buyUpgrade s2 id2).flux ∧
     0 ≤ (Zenith.V2.executeReboot s2).flux ∧ 0 ≤ (Zenith.V2.animate s2 d2).flux) := by
  refine ⟨⟨?_, ?_, ?_, ?_⟩, ⟨?_, ?_, ?_, ?_⟩⟩
  · exact add_nonneg hf (by rw [one_mul]; exact hc)
  · cases hfind : s.upgrades.find? (fun v => v.id == id) with
    | none => simp only [Zenith.V1.buyUpgrade, hfind]; exact hf
    | some u =>
        simp only [Zenith.V1.buyUpgrade, hfind]
        by_cases hle : Zenith.V1.getCost u ≤ s.flux
        · rw [if_pos hle]; exact sub_nonneg.mpr hle
        · rw [if_neg hle]; exact hf
  · unfold Zenith.V1.executeReboot
    by_cases hr : Zenith.V1.getRebootRequirement s ≤ s.flux
    · rw [if_pos hr]
    · rw [if_neg hr]; exact hf
  · exact add_nonneg hf (mul_nonneg (Zenith.V1.rate_nonneg_v1 s hc hp) hd)
  · exact add_nonneg hf2 (by rw [one_mul]; exact Real.rpow_nonneg hc2 _)
  · cases hfind : s2.upgrades.find? (fun v => v.id == id2) with
    | none => simp only [Zenith.V2.buyUpgrade, hfind]; exact hf2
    | some u =>
        simp only [Zenith.V2.buyUpgrade, hfind]
        by_cases hle : Zenith.V2.getCost u ≤ s2.flux
        · rw [if_pos hle]; exact sub_nonneg.mpr hle
        · rw [if_neg hle]; exact hf2
  · unfold Zenith.V2.executeReboot
    by_cases hr : Zenith.V2.getRebootRequirement s2 ≤ s2.flux
    · rw [if_pos hr]
    · rw [if_neg hr]; exact hf2
  · exact add_nonneg hf2 (mul_nonneg (Zenith.V2.rate_nonneg_v2 s2 hc2 hp2) hd2)

/-- Every v1 upgrade power is nonnegative. -/
lemma Zenith.V1.powers_nonneg_v1 :
    ∀ u ∈ Zenith.V1.initUpgrades, 0 ≤ u.power := by
  intro u hu
  fin_cases hu <;> norm_num

/-- Every v2 upgrade power is nonnegative. -/
lemma Zenith.V2.powers_nonneg_v2 :
    ∀ u ∈ Zenith.V2.initUpgrades, 0 ≤ u.power := by
  intro u hu
  fin_cases hu <;> norm_num

/-- Witness for amended C5 at the two initial states with a 1-second tick. -/
theorem flux_nonneg_preserved_witness :
    0 ≤ Zenith.V1.initState.flux ∧ 0 ≤ Zenith.V1.initState.coherence ∧
    0 ≤ Zenith.V2.initState.flux ∧ 0 ≤ Zenith.V2.initState.coherence ∧
    0 ≤ (Zenith.V1.tick Zenith.V1.initState 1).flux ∧
    0 ≤ (Zenith.V2.animate Zenith.V2.initState 1).flux := by
  have hf : 0 ≤ Zenith.V1.initState.flux := le_refl 0
  have hc : 0 ≤ Zenith.V1.initState.coherence := zero_le_one
  have hf2 : 0 ≤ Zenith.V2.initState.flux := le_refl 0
  have hc2 : 0 ≤ Zenith.V2.initState.coherence := zero_le_one
  have h := flux_nonneg_preserved Zenith.V1.initState Zenith.V2.initState
    "u1" "u1" 1 1 hf hc Zenith.V1.powers_nonneg_v1 zero_le_one
    hf2 hc2 Zenith.V2.powers_nonneg_v2 zero_le_one
  exact ⟨hf, hc, hf2, hc2, h.1.2.2.2, h.2.2.2.2⟩

/-- C6: in both engine variants, the cost of an upgrade at owned count `n`
is `baseCost * costMult ^ n`, so the cost at count `n+1` is the cost at
count `n` times `costMult` (a fixed per-upgrade ratio), and — since every
upgrade of the game has `baseCost > 0` and `costMult > 1`, as the last two
conjuncts check for all eight upgrade definitions — the cost is strictly
increasing in `n`. -/
theorem getCost_exponential (u : Zenith.Upgrade) (n : ℕ)
    (hb : 0 < u.baseCost) (hm : 1 < u.costMult) :
    Zenith.V1.getCost { u with count := n } = u.baseCost * u.costMult ^ n ∧
    Zenith.V2.getCost { u with count := n } = u.baseCost * u.costMult ^ n ∧
    Zenith.V1.getCost { u with count := n + 1 } =
      Zenith.V1.getCost { u with count := n } * u.costMult ∧
    Zenith.V2.getCost { u with count := n + 1 } =
      Zenith.V2.getCost { u with count := n } * u.costMult ∧
    Zenith.V1.getCost { u with count := n } <
      Zenith.V1.getCost { u with count := n + 1 } ∧
    Zenith.V2.getCost { u with count := n } <
      Zenith.V2.getCost { u with count := n + 1 } ∧
    (∀ v ∈ Zenith.V1.initUpgrades, 0 < v.baseCost ∧ 1 < v.costMult) ∧
    (∀ v ∈ Zenith.V2.initUpgrades, 0 < v.baseCost ∧ 1 < v.costMult) := by
  have hrec : u.baseCost * u.costMult ^ (n + 1) =
      u.baseCost * u.costMult ^ n * u.costMult := by
    rw [pow_succ, mul_assoc]
  have hpos : 0 < u.baseCost * u.costMult ^ n :=
    mul_pos hb (pow_pos (zero_lt_one.trans hm) n)
  have hlt : u.baseCost * u.costMult ^ n < u.baseCost * u.costMult ^ (n + 1) := by
    rw [hrec]
    exact lt_mul_of_one_lt_right hpos hm
  exact ⟨rfl, rfl, hrec, hrec, hlt, hlt,
    by intro v hv; fin_cases hv <;> constructor <;> norm_num,
    by intro v hv; fin_cases hv <;> constructor <;> norm_num⟩

/-- Witness for C6 at the first v1 upgrade (`u1`, base cost 10,
multiplier 1.15) and count 0. -/
theorem getCost_exponential_witness :
    (0:ℝ) < 10 ∧ (1:ℝ) < 1.15 ∧
    Zenith.V1.getCost ⟨"u1", 10, 1.15, 1, 0.5, false⟩ =
      Zenith.V1.getCost ⟨"u1", 10, 1.15, 0, 0.5, false⟩ * 1.15 ∧
    Zenith.V1.getCost ⟨"u1", 10, 1.15, 0, 0.5, false⟩ <
      Zenith.V1.getCost ⟨"u1", 10, 1.15, 1, 0.5, false⟩ := by
  have hb : (0:ℝ) < (⟨"u1", 10, 1.15, 0, 0.5, false⟩ : Zenith.Upgrade).baseCost := by
    norm_num
  have hm : (1:ℝ) < (⟨"u1", 10, 1.15, 0, 0.5, false⟩ : Zenith.Upgrade).costMult := by
    norm_num
  have h := getCost_exponential ⟨"u1", 10, 1.15, 0, 0.5, false⟩ 0 hb hm
  exact ⟨by norm_num, by norm_num, h.2.2.1, h.2.2.2.2.1⟩

/-- C7: for every coherence level `c`, the ratio of the zenith target at
`c + 1` to the zenith target at `c` is the constant `10 ^ 1.2` in the v1
engine and `10 ^ 1.5` in the v2 engine, independent of `c`. -/
theorem zenithTarget_constant_ratio (c : ℝ) :
    Zenith.V1.getZenithTargetAt (c + 1) / Zenith.V1.getZenithTargetAt c =
      (10 : ℝ) ^ (1.2 : ℝ) ∧
    Zenith.V2.getZenithTargetAt (c + 1) / Zenith.V2.getZenithTargetAt c =
      (10 : ℝ) ^ (1.5 : ℝ) := by
  constructor
  · unfold Zenith.V1.getZenithTargetAt
    rw [← Real.rpow_sub (by norm_num : (0:ℝ) < 10)]
    congr 1
    ring
  · unfold Zenith.V2.getZenithTargetAt
    rw [← Real.rpow_sub (by norm_num : (0:ℝ) < 10)]
    congr 1
    ring

/-- `setCount` leaves a list unchanged when no element has the target id. -/
theorem Zenith.setCount_of_no_match : ∀ (us : List Zenith.Upgrade) (id : String) (c : ℕ),
    (∀ u ∈ us, u.id ≠ id) → Zenith.setCount us id c = us
  | [], _, _, _ => rfl
  | u :: rest, id, c, h => by
      have hu : u.id ≠ id := h u (List.mem_cons_self u rest)
      rw [Zenith.setCount, if_neg (by simpa using hu),
        Zenith.setCount_of_no_match rest id c
          (fun v hv => h v (List.mem_cons_of_mem u hv))]

/-- Unfolding `countOf` over a cons cell. -/
theorem Zenith.countOf_cons (u : Zenith.Upgrade) (us : List Zenith.Upgrade)
    (id : String) :
    Zenith.countOf (u :: us) id =
      if u.id == id then u.count else Zenith.countOf us id := by
  cases h : (u.id == id) with
  | true => simp [Zenith.countOf, List.find?_cons, h]
  | false => simp [Zenith.countOf, List.find?_cons, h]

/-- `setCount` at one id does not change `countOf` at a different id. -/
theorem Zenith.countOf_setCount_ne : ∀ (us : List Zenith.Upgrade) (id id' : String) (c : ℕ),
    id' ≠ id → Zenith.countOf (Zenith.setCount us id' c) id = Zenith.countOf us id
  | [], _, _, _, _ => rfl
  | u :: rest, id, id', c, hne => by
      cases h' : (u.id == id') with
      | true =>
          have hid : u.id = id' := by simpa using h'
          have hmiss : (u.id == id) = false := by
            simp only [beq_eq_false_iff_ne, ne_eq, hid]
            exact hne
          rw [Zenith.setCount, if_pos h', Zenith.countOf_cons, Zenith.countOf_cons]
          simp [hmiss]
      | false =>
          rw [Zenith.setCount, if_neg (by simp [h']),
            Zenith.countOf_cons, Zenith.countOf_cons]
          cases hid : (u.id == id) with
          | true => simp [hid]
          | false => simp [hid, Zenith.countOf_setCount_ne rest id id' c hne]

/-- Applying a saved-upgrade list whose ids all differ from `id` does not
change `countOf` at `id`. -/
theorem Zenith.countOf_foldl_applySaved : ∀ (l : List (String × ℕ))
    (us : List Zenith.Upgrade) (id : String), (∀ su ∈ l, su.1 ≠ id) →
    Zenith.countOf (l.foldl Zenith.V1.applySaved us) id = Zenith.countOf us id
  | [], _, _, _ => rfl
  | su :: rest, us, id, h => by
      rw [List.foldl_cons,
        Zenith.countOf_foldl_applySaved rest _ id
          (fun v hv => h v (List.mem_cons_of_mem su hv)),
        Zenith.V1.applySaved,
        Zenith.countOf_setCount_ne us id su.1 su.2 (h su (List.mem_cons_self su rest))]

/-- Applying a saved-upgrade list with only unknown ids is the identity. -/
theorem Zenith.foldl_applySaved_unknown : ∀ (l : List (String × ℕ))
    (us : List Zenith.Upgrade), (∀ su ∈ l, ∀ u ∈ us, u.id ≠ su.1) →
    l.foldl Zenith.V1.applySaved us = us
  | [], _, _ => rfl
  | su :: rest, us, h => by
      rw [List.foldl_cons, Zenith.V1.applySaved,
        Zenith.setCount_of_no_match us su.1 su.2
          (h su (List.mem_cons_self su rest)),
        Zenith.foldl_applySaved_unknown rest us
          (fun v hv => h v (List.mem_cons_of_mem su hv))]

/-- Counterexample to C8: loading a snapshot without an `upgrades` field is
fatal — `data.upgrades.forEach` throws after the scalar fields were already
assigned, so `loadGame` errors out (carrying the partially-updated state)
instead of recovering with defaults. -/
theorem loadGame_missing_upgrades_fatal :
    Zenith.V1.loadGame Zenith.V1.initState (some Zenith.V1.badSnapshot) =
      .error { Zenith.V1.initState with flux := 5 } := by
  have h5 : Zenith.V1.jsOr (some 5) 0 = 5 := by
    rw [Zenith.V1.jsOr, if_neg (by norm_num)]
  simp [Zenith.V1.loadGame, Zenith.V1.badSnapshot, h5, Zenith.V1.jsOr,
        Zenith.V1.jsOrN, Zenith.V1.initState]

/-- C8 (amended): loading is non-fatal and applies per-field defaults
*provided the snapshot has an `upgrades` array* (a snapshot without one is
fatal, see the counterexample): an absent stored snapshot leaves the state
unchanged; otherwise missing scalar fields get their defaults
(`resource 0`, `totalAccrued 0`, `coherence 1.0`, `resetCount 0`), saved
entries whose ids match no known upgrade definition are ignored, and
upgrades absent from the snapshot keep their current (initially 0) count. -/
theorem loadGame_defaults (s : Zenith.V1.State) (d : Zenith.V1.Snapshot)
    (l : List (String × ℕ)) (hud : d.upgrades = some l) :
    Zenith.V1.loadGame s none = .ok s ∧
    ∃ s', Zenith.V1.loadGame s (some d) = .ok s' ∧
      s'.flux = Zenith.V1.jsOr d.flux 0 ∧
      s'.totalFlux = Zenith.V1.jsOr d.totalFlux 0 ∧
      s'.coherence = Zenith.V1.jsOr d.coherence 1 ∧
      s'.rebootCount = Zenith.V1.jsOrN d.rebootCount 0 ∧
      (d.flux = none → s'.flux = 0) ∧
      (d.totalFlux = none → s'.totalFlux = 0) ∧
      (d.coherence = none → s'.coherence = 1) ∧
      (d.rebootCount = none → s'.rebootCount = 0) ∧
      ((∀ su ∈ l, ∀ u ∈ s.upgrades, u.id ≠ su.1) → s'.upgrades = s.upgrades) ∧
      (∀ id, (∀ su ∈ l, su.1 ≠ id) →
        Zenith.countOf s'.upgrades id = Zenith.countOf s.upgrades id) := by
  refine ⟨rfl, ?_⟩
  have hld : Zenith.V1.loadGame s (some d) =
      .ok { s with flux := Zenith.V1.jsOr d.flux 0,
                   totalFlux := Zenith.V1.jsOr d.totalFlux 0,
                   coherence := Zenith.V1.jsOr d.coherence 1,
                   rebootCount := Zenith.V1.jsOrN d.rebootCount 0,
                   upgrades := l.foldl Zenith.V1.applySaved s.upgrades } := by
    simp only [Zenith.V1.loadGame, hud]
  refine ⟨_, hld, rfl, rfl, rfl, rfl, ?_, ?_, ?_, ?_, ?_, ?_⟩
  · intro h; rw [show Zenith.V1.jsOr d.flux 0 = Zenith.V1.jsOr none 0 from by rw [h]]; rfl
  · intro h; rw [show Zenith.V1.jsOr d.totalFlux 0 = Zenith.V1.jsOr none 0 from by rw [h]]; rfl
  · intro h; rw [show Zenith.V1.jsOr d.coherence 1 = Zenith.V1.jsOr none 1 from by rw [h]]; rfl
  · intro h; rw [show Zenith.V1.jsOrN d.rebootCount 0 = Zenith.V1.jsOrN none 0 from by rw [h]]; rfl
  · intro h
    exact Zenith.foldl_applySaved_unknown l s.upgrades
      (fun su hsu u hu => h su hsu u hu)
  · intro id h
    exact Zenith.countOf_foldl_applySaved l s.upgrades id h

/-- Witness for amended C8: loading `sparseSnapshot` over the initial state
succeeds, defaults every scalar field, and leaves the upgrade list
untouched (the only saved id, `zz`, is unknown). -/
theorem loadGame_defaults_witness :
    Zenith.V1.sparseSnapshot.upgrades = some [("zz", 7)] ∧
    ∃ s', Zenith.V1.loadGame Zenith.V1.initState (some Zenith.V1.sparseSnapshot) =
        .ok s' ∧
      s'.flux = 0 ∧ s'.totalFlux = 0 ∧ s'.coherence = 1 ∧ s'.rebootCount = 0 ∧
      s'.upgrades = Zenith.V1.initState.upgrades := by
  have hud : Zenith.V1.sparseSnapshot.upgrades = some [("zz", 7)] := rfl
  obtain ⟨-, s', hok, _, _, _, _, hf, ht, hc, hr, hun, -⟩ :=
    loadGame_defaults Zenith.V1.initState Zenith.V1.sparseSnapshot [("zz", 7)] hud
  refine ⟨hud, s', hok, hf rfl, ht rfl, hc rfl, hr rfl, hun ?_⟩
  intro su hsu u hu
  fin_cases hsu
  fin_cases hu <;> simp [Zenith.V1.initUpgrades]

/-- C9: no v1 engine operation ever invokes `saveGame` — the serializer is
defined (lines 196–205) but no operation's body calls it, so no save is
triggered after ticks, collects, purchases or reboots; in particular a
*successful* purchase from `buyReadyState` emits only the presentation
calls `notify`, `renderUpgrades`, `updateUI`. -/
theorem saveGame_never_triggered (s : Zenith.V1.State) (id : String) (d : ℝ) :
    Zenith.Effect.saveGame ∉ Zenith.V1.buyUpgradeEffects s id ∧
    Zenith.Effect.saveGame ∉ Zenith.V1.executeRebootEffects s ∧
    Zenith.Effect.saveGame ∉ Zenith.V1.tickEffects s d ∧
    Zenith.Effect.saveGame ∉ Zenith.V1.collectEffects s ∧
    Zenith.V1.buyUpgradeEffects Zenith.V1.buyReadyState "u1" =
      [Zenith.Effect.notify, Zenith.Effect.renderUpgrades, Zenith.Effect.updateUI] := by
  refine ⟨?_, ?_, ?_, ?_, ?_⟩
  · cases hfind : s.upgrades.find? (fun v => v.id == id) with
    | none => simp [Zenith.V1.buyUpgradeEffects, hfind]
    | some u =>
        simp only [Zenith.V1.buyUpgradeEffects, hfind]
        split <;> simp
  · unfold Zenith.V1.executeRebootEffects
    split <;> simp
  · simp [Zenith.V1.tickEffects]
  · simp [Zenith.V1.collectEffects]
  · have hfind : Zenith.V1.buyReadyState.upgrades.find? (fun v => v.id == "u1") =
        some ⟨"u1", 10, 1.15, 0, 0.5, false⟩ := rfl
    simp only [Zenith.V1.buyUpgradeEffects, hfind]
    rw [if_pos (by simp [Zenith.V1.getCost, Zenith.V1.buyReadyState, Zenith.V1.initState])]

/-- C10: in both engine variants, `executeReboot` leaves `totalFlux`
unchanged — in the success branch the rewritten fields are `coherence`,
`flux`, the upgrade counts, the reboot counter (and, in v2, the distance
anchors), while the lifetime total is untouched; in the declined branch
the state is unchanged entirely. -/
theorem executeReboot_preserves_totalFlux (s : Zenith.V1.State)
    (s2 : Zenith.V2.State) :
    (Zenith.V1.executeReboot s).totalFlux = s.totalFlux ∧
    (Zenith.V2.executeReboot s2).totalFlux = s2.totalFlux := by
  constructor
  · unfold Zenith.V1.executeReboot
    split <;> rfl
  · unfold Zenith.V2.executeReboot
    split <;> rfl
